import Mathlib

/-!
# Verification of the petition search engine

A shallow embedding of `backend/app/search_engine.py` (class
`PetitionSearchEngine`), together with the request model of
`backend/app/models.py` and the endpoint glue of `backend/app/main.py`.

Modelling conventions:
* Python strings are Lean `String`s; string algorithms (`str.split()`,
  `str.strip()`, `str.lower()`, slicing) are re-implemented over `List Char`
  so that every definition reduces in the kernel.  Python's `\w` regex class
  is modelled as ASCII alphanumerics plus underscore (the data contains no
  other word characters), and `str.lower` as ASCII lowering.
* Python `int` values are `Int`; `int(...)` parsing failures are `Option`.
  (Python's underscore digit grouping is not modelled.)
* Similarity scores (floats produced by the encoder / cosine similarity)
  are modelled as rationals `ℚ`; the encoder itself is an opaque parameter.
* The filesystem seen by the loader is `Option String` (the content of the
  configured CSV path, in universal-newlines view); writes always succeed in
  the model (the code logs and ignores write failures).
* Exceptions are `Except` / `Option`; raising `ValueError` / `RuntimeError`
  in `search` is an `Except.error` of the corresponding constructor.
-/

set_option maxRecDepth 40000

namespace PetitionSearch

/-! ## String primitives (Python semantics, over `List Char`) -/

/-- Split a character list at every separator satisfying `p`, keeping empty
chunks: the semantics of Python `str.split(sep)` for a one-character `sep`
(and the building block for whitespace splitting). -/
def splitByP (p : Char → Bool) (cs : List Char) : List (List Char) :=
  cs.foldr
    (fun c acc =>
      if p c then [] :: acc
      else
        match acc with
        | [] => [[c]]
        | h :: t => (c :: h) :: t)
    [[]]

/-- Python `str.split()` with no argument: split on whitespace runs and drop
the empty pieces. -/
def pySplit (s : String) : List String :=
  ((splitByP Char.isWhitespace s.toList).filter (fun w => w ≠ [])).map String.mk

/-- Python `str.strip()`: drop leading and trailing whitespace. -/
def pyStrip (s : String) : String :=
  String.mk (((s.toList.dropWhile Char.isWhitespace).reverse.dropWhile
      Char.isWhitespace).reverse)

/-- Python `str.lower()` (ASCII). -/
def pyLower (s : String) : String :=
  String.mk (s.toList.map Char.toLower)

/-- Whether `pat` occurs as a contiguous substring: Python `pat in s`. -/
def containsSub (pat : List Char) : List Char → Bool
  | [] => pat.isEmpty
  | c :: rest => pat.isPrefixOf (c :: rest) || containsSub pat rest

/-- Python `'x'.join`-style joining with a single space. -/
def joinSpace : List String → String
  | [] => ""
  | w :: rest => rest.foldl (fun acc x => acc ++ " " ++ x) w

/-- Digits to a natural number, most significant first. -/
def digitsToNat (cs : List Char) : ℕ :=
  cs.foldl (fun acc c => acc * 10 + (c.toNat - '0'.toNat)) 0

/-- Python `int(s)` on a decimal string: optional surrounding whitespace,
optional sign, then at least one digit; anything else raises (`none`). -/
def pyInt (s : String) : Option ℤ :=
  let t := (pyStrip s).toList
  let signed : ℤ × List Char :=
    match t with
    | '-' :: rest => (-1, rest)
    | '+' :: rest => (1, rest)
    | l => (1, l)
  if signed.2 ≠ [] ∧ signed.2.all Char.isDigit then
    some (signed.1 * (digitsToNat signed.2 : ℤ))
  else none

/-! ## Data model -/

/-- One dataset record, as built by `_load_data` / `_create_sample_data`. -/
structure Petition where
  title : String
  url : String
  state : String
  signatures : ℤ
deriving DecidableEq

/-! ## Dataset loader (`_clean_text`, `_create_sample_data`, `_load_data`) -/

/-- Character allow-list of `_clean_text`'s regex `re.sub(r'[^\w\s.,!?-]', '', t)`:
word characters (modelled as ASCII alphanumerics plus underscore), whitespace,
and `. , ! ? -`. -/
def keepChar (c : Char) : Bool :=
  c.isAlphanum || c = '_' || c.isWhitespace ||
    c = '.' || c = ',' || c = '!' || c = '?' || c = '-'

/-- `_clean_text`: collapse whitespace runs (`' '.join(text.split())`), drop
characters outside the allow-list, and truncate to 500 characters appending
an ellipsis marker when cut. -/
def cleanText (s : String) : String :=
  let collapsed := joinSpace (pySplit s)
  let kept := String.mk (collapsed.toList.filter keepChar)
  if kept.toList.length > 500 then String.mk (kept.toList.take 500) ++ "..." else kept

/-- The ten canned petitions of `_create_sample_data`. -/
def samplePetitions : List Petition :=
  [ { title := "Increase funding for renewable energy research and development",
      url := "https://petition.parliament.uk/petitions/700001",
      state := "open", signatures := 45678 },
    { title := "Ban single-use plastics in all UK supermarkets by 2026",
      url := "https://petition.parliament.uk/petitions/700002",
      state := "open", signatures := 123456 },
    { title := "Improve mental health support in schools",
      url := "https://petition.parliament.uk/petitions/700003",
      state := "open", signatures := 87234 },
    { title := "Make climate change education mandatory in schools",
      url := "https://petition.parliament.uk/petitions/700004",
      state := "closed", signatures := 234567 },
    { title := "Fund reconstruction surgery and psychosexual therapy for FGM survivors",
      url := "https://petition.parliament.uk/petitions/700005",
      state := "closed", signatures := 939 },
    { title := "Reduce university tuition fees to £3000 per year",
      url := "https://petition.parliament.uk/petitions/700006",
      state := "open", signatures := 567890 },
    { title := "Protect green belt land from housing development",
      url := "https://petition.parliament.uk/petitions/700007",
      state := "open", signatures := 34567 },
    { title := "Increase NHS funding by 10% annually",
      url := "https://petition.parliament.uk/petitions/700008",
      state := "closed", signatures := 456789 },
    { title := "Ban the sale of fireworks to the public",
      url := "https://petition.parliament.uk/petitions/700009",
      state := "open", signatures := 23456 },
    { title := "Implement a four-day working week pilot scheme",
      url := "https://petition.parliament.uk/petitions/700010",
      state := "open", signatures := 98765 } ]

/-- One CSV line as `csv.DictWriter` emits it for a sample petition
(no field needs quoting). -/
def petitionToCSVRow (p : Petition) : String :=
  p.title ++ "," ++ p.url ++ "," ++ p.state ++ "," ++ toString p.signatures

/-- The file content `_create_sample_data` persists: header row plus the ten
sample rows (universal-newlines view of the written file). -/
def sampleCSV : String :=
  "title,url,state,signatures\n" ++
    String.join (samplePetitions.map (fun p => petitionToCSVRow p ++ "\n"))

/-- Split file content into lines (`str.splitlines`-style on `'\n'`,
universal-newlines view). -/
def splitLines (content : String) : List String :=
  (splitByP (fun c => c = '\n') content.toList).map String.mk

/-- Split one CSV record into fields (`csv` module on unquoted fields). -/
def splitFields (line : String) : List String :=
  (splitByP (fun c => c = ',') line.toList).map String.mk

/-- `row.get(name)` for a `csv.DictReader` row: pair header names with the
row's values; a header name beyond the row's width yields `none`. -/
def rowGet (hdr vals : List String) (name : String) : Option String :=
  ((hdr.zip vals).find? (fun p => p.1 = name)).map (fun p => p.2)

/-- Python `a or b or ... or dflt` over `row.get` results: the first value
that is present and non-empty, else the default. -/
def firstTruthy : List (Option String) → String → String
  | [], dflt => dflt
  | some s :: rest, dflt => if s = "" then firstTruthy rest dflt else s
  | none :: rest, dflt => firstTruthy rest dflt

/-- Signature parsing of the header path: strip thousands separators
(`sig_str.replace(',', '')`) then `int(...)`. -/
def parseSignatures (s : String) : Option ℤ :=
  pyInt (String.mk (s.toList.filter (fun c => c ≠ ',')))

/-- One `csv.DictReader` row of the header path of `_load_data`: column-name
aliasing, state lowering, signature parsing.  `none` models the
`ValueError` that aborts the whole load attempt. -/
def parseHeaderRow (hdr vals : List String) : Option Petition :=
  let title := firstTruthy [rowGet hdr vals "title", rowGet hdr vals "petition",
    rowGet hdr vals "text"] ""
  let url := firstTruthy [rowGet hdr vals "url", rowGet hdr vals "link"] ""
  let state := firstTruthy [rowGet hdr vals "state", rowGet hdr vals "status"] "unknown"
  let sigStr := firstTruthy [rowGet hdr vals "signatures",
    rowGet hdr vals "signature_count"] "0"
  (parseSignatures sigStr).map fun n =>
    { title := cleanText title, url := url, state := pyLower state, signatures := n }

/-- The header path of `_load_data`: first line is the header, blank rows are
skipped by `DictReader`, any row error aborts the attempt. -/
def parseWithHeader (lines : List String) : Option (List Petition) :=
  match lines with
  | [] => some []
  | hdrLine :: rest =>
    let hdr := splitFields hdrLine
    (rest.filter (fun l => l ≠ "")).mapM (fun l => parseHeaderRow hdr (splitFields l))

/-- Does the regex `https?://` match at this position? -/
def urlStartsHere (cs : List Char) : Bool :=
  "http://".toList.isPrefixOf cs || "https://".toList.isPrefixOf cs

/-- `re.search(r'https?://[^\s]+', line)`: position of the earliest match and
the matched token (greedy up to whitespace).  The position also equals
`line.index(url)`: an earlier occurrence of the matched string would itself
start a match. -/
def findURL : List Char → Option (ℕ × List Char)
  | [] => none
  | c :: rest =>
    if urlStartsHere (c :: rest) then
      some (0, (c :: rest).takeWhile (fun ch => !ch.isWhitespace))
    else (findURL rest).map (fun p => (p.1 + 1, p.2))

/-- One line of the header-less path of `_load_data`.  `none` models a raised
`ValueError`; `some none` a silently skipped line; `some (some p)` a parsed
petition. -/
def parseNoHeaderLine (line : String) : Option (Option Petition) :=
  let parts := pySplit line
  if parts.length ≥ 4 then
    match findURL line.toList with
    | some (idx, urlCs) =>
      let url := String.mk urlCs
      let title := pyStrip (String.mk (line.toList.take idx))
      let after := pySplit (pyStrip (String.mk (line.toList.drop (idx + urlCs.length))))
      let state := after.headD "unknown"
      match after with
      | _ :: sigStr :: _ =>
        (pyInt sigStr).map fun n =>
          some (Petition.mk (cleanText title) url (pyLower state) n)
      | _ =>
        some (some (Petition.mk (cleanText title) url (pyLower state) 0))
    | none => some none
  else some none

/-- The header-less path of `_load_data`. -/
def parseNoHeader (lines : List String) : Option (List Petition) :=
  (lines.mapM parseNoHeaderLine).map (fun l => l.filterMap id)

/-- The body of `_load_data`'s `try` block: header detection on the first
line (`'http' not in first_line.lower()`), then the matching parse path.
`none` models any raised error (handled by the sample-data fallback). -/
def parseContent (content : String) : Option (List Petition) :=
  let lines := splitLines content
  let firstLine := lines.headD ""
  if containsSub "http".toList (pyLower firstLine).toList then parseNoHeader lines
  else parseWithHeader lines

/-- `_load_data` over the modelled filesystem (content of the CSV path).
Returns the resulting petition list and the file content afterwards.

When the file is absent, `_create_sample_data` assigns the ten sample
petitions and writes them to the path, after which control continues into
the `try` block, which re-reads the freshly written file and appends every
parsed row to the already-populated list.  A parse error instead replaces
the list with the sample data (and rewrites the file). -/
def loadData : Option String → List Petition × Option String
  | none =>
    (match parseContent sampleCSV with
     | some pets => (samplePetitions ++ pets, some sampleCSV)
     | none => (samplePetitions, some sampleCSV))
  | some content =>
    (match parseContent content with
     | some pets => (pets, some content)
     | none => (samplePetitions, some sampleCSV))

/-! ## Embedding store (`_prepare_embeddings`, `is_ready`) -/

/-- A numeric vector produced by the encoder. -/
abbrev Vec := List ℚ

/-- The decoded shape of the pickled cache artifact.  `record` is the format
the code writes (`{'petitions': ..., 'embeddings': ...}`); `bareMatrix` is
the legacy variant holding only an embedding matrix; `unreadable` stands for
content on which `pickle.load` raises. -/
inductive CacheArtifact where
  | record (petitions : List Petition) (embeddings : List Vec)
  | bareMatrix (embeddings : List Vec)
  | unreadable
deriving DecidableEq

/-- The mutable fields of `PetitionSearchEngine` relevant to search. -/
structure EngineState where
  petitions : List Petition
  embeddings : Option (List Vec)
  embeddings_loaded : Bool
deriving DecidableEq

/-- `_prepare_embeddings`, given the decoded cache artifact (`none` when the
cache file is absent) and the encoder.  On a `record` whose stored petition
count equals the current count, the cached matrix is adopted and nothing is
written.  In every other case — absent cache, unreadable pickle, count
mismatch, or a legacy bare matrix (whose `cached_data['petitions']` lookup
raises and is caught) — the matrix is regenerated by encoding all titles
and a fresh record is persisted.  Returns the updated engine state and the
artifact written, if any. -/
def prepareEmbeddings (pets : List Petition) (cache : Option CacheArtifact)
    (enc : List String → List Vec) : EngineState × Option CacheArtifact :=
  let emb := enc (pets.map (fun p => p.title))
  let regen : EngineState × Option CacheArtifact :=
    ({ petitions := pets, embeddings := some emb, embeddings_loaded := true },
      some (CacheArtifact.record pets emb))
  match cache with
  | some (CacheArtifact.record cpets cemb) =>
    if cpets.length = pets.length then
      ({ petitions := pets, embeddings := some cemb, embeddings_loaded := true }, none)
    else regen
  | _ => regen

/-- `is_ready`. -/
def isReady (st : EngineState) : Bool :=
  st.embeddings_loaded && decide (st.petitions.length > 0)

/-- The constructor flow `__init__` → `_load_data` → `_prepare_embeddings`,
over the modelled CSV file content and cache artifact.  Returns the engine
state, the CSV content afterwards, and the cache artifact written, if any. -/
def initEngine (fs : Option String) (cache : Option CacheArtifact)
    (enc : List String → List Vec) :
    EngineState × Option String × Option CacheArtifact :=
  let load := loadData fs
  let prep := prepareEmbeddings load.1 cache enc
  (prep.1, load.2, prep.2)

/-! ## Similarity ranker (`search`) -/

/-- The two exceptions `search` raises before doing any work:
`ValueError("Query cannot be empty")` and
`RuntimeError("Embeddings not loaded...")`. -/
inductive SearchErr where
  | validationError
  | notReadyError
deriving DecidableEq

/-- A result dict: a petition's fields plus the optional
`similarity_score` and `rank` keys. -/
structure SearchResult where
  title : String
  url : String
  state : String
  signatures : ℤ
  simScore : Option ℚ
  rank : Option ℕ
deriving DecidableEq

/-- The sort key `x.get('similarity_score', 0)`. -/
def resultKey (r : SearchResult) : ℚ :=
  r.simScore.getD 0

/-- `a` may precede `b` in the descending order: `key a ≥ key b`. -/
def scoreGE (a b : SearchResult) : Prop :=
  resultKey b ≤ resultKey a

instance : DecidableRel scoreGE := fun a b =>
  inferInstanceAs (Decidable (resultKey b ≤ resultKey a))

instance : IsTotal SearchResult scoreGE :=
  ⟨fun a b => le_total (resultKey b) (resultKey a)⟩

instance : IsTrans SearchResult scoreGE :=
  ⟨fun _ _ _ h h' => le_trans h' h⟩

/-- `results.sort(key=lambda x: x.get('similarity_score', 0), reverse=True)`:
Python's sort is stable, and with `reverse=True` it produces the unique
stable descending-by-key ordering, which is what insertion sort with
`scoreGE` computes. -/
def sortResults (l : List SearchResult) : List SearchResult :=
  l.insertionSort scoreGE

/-- `result['rank'] = i + 1` over `enumerate(results[:top_k])`
(called with the first rank to assign). -/
def assignRanks : ℕ → List SearchResult → List SearchResult
  | _, [] => []
  | i, r :: rs => { r with rank := some i } :: assignRanks (i + 1) rs

/-- The two `continue` guards of the result loop.  Python truthiness: an
empty `state_filter` string and a zero `min_signatures` both disable their
filter. -/
def passesFilters (state_filter : Option String) (min_signatures : Option ℤ)
    (p : Petition) : Bool :=
  (match state_filter with
   | none => true
   | some sf => sf = "" || p.state = pyLower sf) &&
  (match min_signatures with
   | none => true
   | some n => n = 0 || !(p.signatures < n))

/-- `petition.copy()` plus the optional `similarity_score` key. -/
def mkResult (includeScore : Bool) (p : Petition) (sim : ℚ) : SearchResult :=
  { title := p.title, url := p.url, state := p.state, signatures := p.signatures,
    simScore := if includeScore then some sim else none, rank := none }

/-- The filtered, scored result list of `search` before sorting: one entry
per `(similarity, petition)` pair passing both filters, in dataset order. -/
def searchCandidates (pets : List Petition) (sims : List ℚ)
    (state_filter : Option String) (min_signatures : Option ℤ)
    (includeScore : Bool) : List SearchResult :=
  (sims.zip pets).filterMap (fun sp =>
    if passesFilters state_filter min_signatures sp.2 then
      some (mkResult includeScore sp.2 sp.1)
    else none)

/-- `search`.  `querySim` is the opaque composite of the encoder call and
`cosine_similarity` against the stored matrix, producing one score per
stored row.  Validation runs before the readiness check; then results are
filtered, stably sorted descending, the first `top_k` are ranked `1..`, and
that slice is returned. -/
def search (pets : List Petition) (loaded : Bool) (querySim : String → List ℚ)
    (query : String) (top_k : ℕ) (state_filter : Option String)
    (min_signatures : Option ℤ) (include_similarity_score : Bool) :
    Except SearchErr (List SearchResult) :=
  if query = "" ∨ pyStrip query = "" then Except.error SearchErr.validationError
  else if !loaded then Except.error SearchErr.notReadyError
  else
    let cands := searchCandidates pets (querySim query) state_filter min_signatures
      include_similarity_score
    Except.ok (assignRanks 1 ((sortResults cands).take top_k))

/-! ## Keyword fallback (`keyword_fallback_search`) -/

/-- The distinct words of a string, in first-occurrence order: the contents
of Python's `set(s.split())` (order is irrelevant to the counts taken). -/
def wordSet (s : String) : List String :=
  (pySplit s).dedup

/-- The distinct common words of a query word set and a title:
`query_words.intersection(title_words)`. -/
def commonWords (query_words : List String) (title : String) : List String :=
  (wordSet (pyLower title)).filter (fun w => query_words.contains w)

/-- `keyword_fallback_search`: token-overlap scoring.  A petition is kept
only when the intersection is non-empty, with score
`|intersection| / |query words|`; then the same stable descending sort,
ranking, and truncation as the main path. -/
def keywordFallbackSearch (pets : List Petition) (query : String) (top_k : ℕ) :
    List SearchResult :=
  let query_words := wordSet (pyLower query)
  let results := pets.filterMap (fun p =>
    let common := commonWords query_words p.title
    if common ≠ [] then
      some { title := p.title, url := p.url, state := p.state,
             signatures := p.signatures,
             simScore := some ((common.length : ℚ) / (query_words.length : ℚ)),
             rank := none }
    else none)
  assignRanks 1 ((sortResults results).take top_k)

/-! ## Request model (`models.py`) and endpoint glue (`main.py`) -/

/-- `SearchFilters` of `models.py`: note it declares `max_signatures`. -/
structure SearchFilters where
  state : Option String
  min_signatures : Option ℤ
  max_signatures : Option ℤ
deriving DecidableEq

/-- `SearchRequest` of `models.py`. -/
structure SearchRequest where
  query : String
  limit : ℕ
  filters : Option SearchFilters
deriving DecidableEq

/-- The `/api/search` handler's call into the engine: it forwards
`filters.state` and `filters.min_signatures` and always asks for scores;
`filters.max_signatures` is never passed. -/
def searchEndpoint (st : EngineState) (querySim : String → List ℚ)
    (req : SearchRequest) : Except SearchErr (List SearchResult) :=
  search st.petitions st.embeddings_loaded querySim req.query req.limit
    (req.filters.bind (fun f => f.state))
    (req.filters.bind (fun f => f.min_signatures))
    true

/-! ## Analytics aggregator -/

/-- Modelled from the spec: rounding to two decimals
(`round(x, 2)`; no analytics code exists under the backend sources). -/
def round2 (q : ℚ) : ℚ :=
  (round (q * 100) : ℤ) / 100

/-- Modelled from the spec: display truncation of a title to 45 characters
plus an ellipsis marker when longer. -/
def truncate45 (s : String) : String :=
  if s.toList.length > 45 then String.mk (s.toList.take 45) ++ "..." else s

/-- Modelled from the spec: the Analytics Report. -/
structure AnalyticsReport where
  total_count : ℕ
  related_count : ℕ
  percentage_related : ℚ
  status_open : ℕ
  status_closed : ℕ
  status_rejected : ℕ
  top_related : List Petition
deriving DecidableEq

/-- `a` may precede `b` in descending signature order. -/
def sigGE (a b : Petition) : Prop :=
  b.signatures ≤ a.signatures

instance : DecidableRel sigGE := fun a b =>
  inferInstanceAs (Decidable (b.signatures ≤ a.signatures))

/-- Modelled from the spec: `analytics(query, threshold)` — no analytics
implementation exists under the backend sources, only the spec's §4.4
contract.  Encodes the query, scores every petition, retains those with
score `≥ threshold` as related, and aggregates: related count, percentage
related (0 when the dataset is empty), a status breakdown of the related
subset, and the top ten related petitions by signatures with titles
display-truncated. -/
def analytics (pets : List Petition) (querySim : String → List ℚ)
    (query : String) (threshold : ℚ) : AnalyticsReport :=
  let scored := (querySim query).zip pets
  let related := (scored.filter (fun sp => threshold ≤ sp.1)).map (fun sp => sp.2)
  let total := pets.length
  { total_count := total
    related_count := related.length
    percentage_related :=
      if total = 0 then 0 else round2 ((related.length : ℚ) / (total : ℚ) * 100)
    status_open := (related.filter (fun p => p.state = "open")).length
    status_closed := (related.filter (fun p => p.state = "closed")).length
    status_rejected := (related.filter (fun p => p.state = "rejected")).length
    top_related :=
      ((related.insertionSort sigGE).take 10).map
        (fun p => { p with title := truncate45 p.title }) }

/-! ## Supporting lemmas -/

instance {ε α : Type} [DecidableEq ε] [DecidableEq α] : DecidableEq (Except ε α) :=
  fun a b =>
    match a, b with
    | Except.ok x, Except.ok y =>
      if h : x = y then Decidable.isTrue (by rw [h])
      else Decidable.isFalse (fun hc => h (Except.ok.inj hc))
    | Except.error x, Except.error y =>
      if h : x = y then Decidable.isTrue (by rw [h])
      else Decidable.isFalse (fun hc => h (Except.error.inj hc))
    | Except.ok _, Except.error _ => Decidable.isFalse (fun hc => Except.noConfusion hc)
    | Except.error _, Except.ok _ => Decidable.isFalse (fun hc => Except.noConfusion hc)

theorem length_assignRanks (i : ℕ) (l : List SearchResult) :
    (assignRanks i l).length = l.length := by
  induction l generalizing i with
  | nil => rfl
  | cons r rs ih => simp [assignRanks, ih]

theorem map_rank_assignRanks (i : ℕ) (l : List SearchResult) :
    (assignRanks i l).map (fun r => r.rank) = (List.range' i l.length).map some := by
  induction l generalizing i with
  | nil => rfl
  | cons r rs ih => simp [assignRanks, List.range'_succ, ih]

theorem mem_assignRanks {r : SearchResult} {i : ℕ} {l : List SearchResult}
    (h : r ∈ assignRanks i l) :
    ∃ a ∈ l, ∃ j : ℕ, r = { a with rank := some j } := by
  induction l generalizing i with
  | nil => cases h
  | cons b rs ih =>
    rcases List.mem_cons.mp h with hb | htail
    · exact ⟨b, List.mem_cons_self b rs, i, hb⟩
    · obtain ⟨a, ha, j, hj⟩ := ih htail
      exact ⟨a, List.mem_cons_of_mem b ha, j, hj⟩

theorem pairwise_assignRanks (i : ℕ) {l : List SearchResult}
    (h : l.Pairwise scoreGE) : (assignRanks i l).Pairwise scoreGE := by
  induction l generalizing i with
  | nil => exact List.Pairwise.nil
  | cons b rs ih =>
    rcases List.pairwise_cons.mp h with ⟨hb, hrs⟩
    refine List.pairwise_cons.mpr ⟨?_, ih (i + 1) hrs⟩
    intro r hr
    obtain ⟨a, ha, j, hj⟩ := mem_assignRanks hr
    subst hj
    exact hb a ha

theorem filter_key_orderedInsert (x : SearchResult) (l : List SearchResult) (c : ℚ) :
    (List.orderedInsert scoreGE x l).filter (fun r => resultKey r = c) =
      if resultKey x = c then x :: l.filter (fun r => resultKey r = c)
      else l.filter (fun r => resultKey r = c) := by
  induction l with
  | nil =>
    by_cases hx : resultKey x = c <;> simp [List.orderedInsert, List.filter_cons, hx]
  | cons b t ih =>
    by_cases hb : scoreGE x b
    · rw [List.orderedInsert, if_pos hb]
      by_cases hx : resultKey x = c <;> simp [List.filter_cons, hx]
    · rw [List.orderedInsert, if_neg hb]
      by_cases hbc : resultKey b = c
      · have hx : ¬ resultKey x = c := by
          intro hxc
          exact hb (le_of_eq (hbc.trans hxc.symm))
        simp [List.filter_cons, hbc, hx, ih]
      · by_cases hx : resultKey x = c <;> simp [List.filter_cons, hbc, hx, ih]

theorem filter_key_sortResults (l : List SearchResult) (c : ℚ) :
    (sortResults l).filter (fun r => resultKey r = c) =
      l.filter (fun r => resultKey r = c) := by
  induction l with
  | nil => rfl
  | cons b t ih =>
    show (List.orderedInsert scoreGE b (List.insertionSort scoreGE t)).filter _ = _
    rw [filter_key_orderedInsert]
    by_cases hb : resultKey b = c <;>
      simpa [List.filter_cons, hb] using ih

theorem sorted_sortResults (l : List SearchResult) :
    (sortResults l).Pairwise scoreGE :=
  List.sorted_insertionSort scoreGE l

theorem mem_searchCandidates {r : SearchResult} {pets : List Petition}
    {sims : List ℚ} {sf : Option String} {ms : Option ℤ} {inc : Bool}
    (h : r ∈ searchCandidates pets sims sf ms inc) :
    ∃ s p, (s, p) ∈ sims.zip pets ∧ passesFilters sf ms p = true ∧
      r = mkResult inc p s := by
  unfold searchCandidates at h
  rw [List.mem_filterMap] at h
  obtain ⟨⟨s, p⟩, hmem, hf⟩ := h
  by_cases hp : passesFilters sf ms p
  · rw [if_pos hp] at hf
    exact ⟨s, p, hmem, hp, (Option.some.inj hf).symm⟩
  · rw [if_neg hp] at hf
    cases hf

theorem search_ok_eq {pets : List Petition} {loaded : Bool}
    {querySim : String → List ℚ} {query : String} {k : ℕ}
    {sf : Option String} {ms : Option ℤ} {inc : Bool}
    {out : List SearchResult}
    (h : search pets loaded querySim query k sf ms inc = Except.ok out) :
    out = assignRanks 1
      ((sortResults (searchCandidates pets (querySim query) sf ms inc)).take k) := by
  unfold search at h
  by_cases hq : query = "" ∨ pyStrip query = ""
  · rw [if_pos hq] at h
    cases h
  · rw [if_neg hq] at h
    cases loaded with
    | false => cases h
    | true => exact (Except.ok.inj h).symm

theorem search_mem_inv {pets : List Petition} {loaded : Bool}
    {querySim : String → List ℚ} {query : String} {k : ℕ}
    {sf : Option String} {ms : Option ℤ} {inc : Bool}
    {out : List SearchResult} {r : SearchResult}
    (h : search pets loaded querySim query k sf ms inc = Except.ok out)
    (hr : r ∈ out) :
    ∃ s p, (s, p) ∈ (querySim query).zip pets ∧ passesFilters sf ms p = true ∧
      ∃ j : ℕ, r = { mkResult inc p s with rank := some j } := by
  rw [search_ok_eq h] at hr
  obtain ⟨a, ha, j, hj⟩ := mem_assignRanks hr
  have ha2 : a ∈ sortResults (searchCandidates pets (querySim query) sf ms inc) :=
    List.mem_of_mem_take ha
  have ha3 : a ∈ searchCandidates pets (querySim query) sf ms inc :=
    (List.mem_insertionSort scoreGE).mp ha2
  obtain ⟨s, p, hmem, hp, hr2⟩ := mem_searchCandidates ha3
  exact ⟨s, p, hmem, hp, j, by rw [hj, hr2]⟩

theorem mem_keywordFallback {pets : List Petition} {query : String} {k : ℕ}
    {r : SearchResult} (h : r ∈ keywordFallbackSearch pets query k) :
    ∃ p ∈ pets, commonWords (wordSet (pyLower query)) p.title ≠ [] ∧ ∃ j : ℕ,
      r = { title := p.title, url := p.url, state := p.state,
            signatures := p.signatures,
            simScore := some
              (((commonWords (wordSet (pyLower query)) p.title).length : ℚ) /
                ((wordSet (pyLower query)).length : ℚ)),
            rank := some j } := by
  unfold keywordFallbackSearch at h
  obtain ⟨a, ha, j, hj⟩ := mem_assignRanks h
  have ha2 := (List.mem_insertionSort scoreGE).mp (List.mem_of_mem_take ha)
  rw [List.mem_filterMap] at ha2
  obtain ⟨p, hp, hf⟩ := ha2
  by_cases hc : commonWords (wordSet (pyLower query)) p.title ≠ []
  · rw [if_pos hc] at hf
    exact ⟨p, hp, hc, j, by rw [hj, ← Option.some.inj hf]⟩
  · rw [if_neg hc] at hf
    cases hf

theorem splitByP_all {p : Char → Bool} {cs : List Char} (h : ∀ c ∈ cs, p c) :
    (splitByP p cs).filter (fun w => w ≠ []) = [] := by
  induction cs with
  | nil => rfl
  | cons c rest ih =>
    have hc : p c := h c (List.mem_cons_self c rest)
    show (if p c then [] :: splitByP p rest
      else
        match splitByP p rest with
        | [] => [[c]]
        | h :: t => (c :: h) :: t).filter (fun w => w ≠ []) = []
    rw [if_pos hc]
    simpa using ih (fun x hx => h x (List.mem_cons_of_mem c hx))

theorem pyStrip_empty_all_ws {s : String} (h : pyStrip s = "") :
    ∀ c ∈ s.toList, c.isWhitespace := by
  have hdata : (((s.toList.dropWhile Char.isWhitespace).reverse.dropWhile
      Char.isWhitespace).reverse) = [] := by
    have := congrArg String.data h
    simpa [pyStrip] using this
  have hmid : ∀ c ∈ s.toList.dropWhile Char.isWhitespace, c.isWhitespace := by
    intro c hc
    have h2 : ((s.toList.dropWhile Char.isWhitespace).reverse.dropWhile
        Char.isWhitespace) = [] := by
      simpa using congrArg List.reverse hdata
    have h3 := List.dropWhile_eq_nil_iff.mp h2
    exact h3 c (List.mem_reverse.mpr hc)
  intro c hc
  rw [← List.takeWhile_append_dropWhile (p := Char.isWhitespace)
    (l := s.toList)] at hc
  rcases List.mem_append.mp hc with h1 | h2
  · exact List.mem_takeWhile_imp h1
  · exact hmid c h2

theorem isWhitespace_toLower {c : Char} (h : c.isWhitespace) :
    c.toLower.isWhitespace := by
  have hd : c = ' ' ∨ c = '\t' ∨ c = '\r' ∨ c = '\n' := by
    simpa [Char.isWhitespace, or_assoc] using h
  rcases hd with rfl | rfl | rfl | rfl <;> decide

theorem wordSet_empty_of_ws {query : String}
    (hq : query = "" ∨ pyStrip query = "") : wordSet (pyLower query) = [] := by
  rcases hq with rfl | hq
  · rfl
  · have hws : ∀ c ∈ (pyLower query).toList, c.isWhitespace := by
      intro c hc
      have : c ∈ query.toList.map Char.toLower := hc
      obtain ⟨a, ha, rfl⟩ := List.mem_map.mp this
      exact isWhitespace_toLower (pyStrip_empty_all_ws hq a ha)
    have : pySplit (pyLower query) = [] := by
      unfold pySplit
      rw [splitByP_all hws]
      rfl
    unfold wordSet
    rw [this]
    rfl

/-! ## Claim theorems -/

/-- Well-formedness of a decoded cache record: the artifact the code itself
persists pairs a petition snapshot with its embedding matrix, one vector per
petition. -/
def cacheWF : Option CacheArtifact → Prop
  | some (CacheArtifact.record ps es) => es.length = ps.length
  | _ => True

theorem prepareEmbeddings_aligned (pets : List Petition)
    (cache : Option CacheArtifact) (enc : List String → List Vec)
    (henc : ∀ ts, (enc ts).length = ts.length) (hcache : cacheWF cache) :
    (prepareEmbeddings pets cache enc).1.petitions = pets ∧
    ∃ m, (prepareEmbeddings pets cache enc).1.embeddings = some m ∧
      m.length = pets.length := by
  unfold prepareEmbeddings
  rcases cache with _ | c
  · exact ⟨rfl, enc (pets.map fun p => p.title), rfl,
      by rw [henc, List.length_map]⟩
  · rcases c with ⟨cpets, cemb⟩ | cemb | _
    · by_cases hl : cpets.length = pets.length
      · dsimp only
        rw [if_pos hl]
        exact ⟨rfl, cemb, rfl, hcache.trans hl⟩
      · dsimp only
        rw [if_neg hl]
        exact ⟨rfl, enc (pets.map fun p => p.title), rfl,
          by rw [henc, List.length_map]⟩
    · exact ⟨rfl, enc (pets.map fun p => p.title), rfl,
        by rw [henc, List.length_map]⟩
    · exact ⟨rfl, enc (pets.map fun p => p.title), rfl,
        by rw [henc, List.length_map]⟩

/-- C1: in every engine state produced by the constructor flow in which
`is_ready()` is true, a matrix is held in memory and its length equals the
petition count — including states reached by adopting a cached matrix
(hypotheses: the encoder returns one vector per input text, and a decoded
cache record is internally aligned, as the code writes it). -/
theorem C1_ready_embedding_matrix_aligned
    (fs : Option String) (cache : Option CacheArtifact)
    (enc : List String → List Vec)
    (henc : ∀ ts, (enc ts).length = ts.length) (hcache : cacheWF cache)
    (hready : isReady (initEngine fs cache enc).1 = true) :
    ∃ m, (initEngine fs cache enc).1.embeddings = some m ∧
      m.length = (initEngine fs cache enc).1.petitions.length := by
  obtain ⟨hpets, m, hm, hlen⟩ :=
    prepareEmbeddings_aligned (loadData fs).1 cache enc henc hcache
  exact ⟨m, hm, hlen.trans (congrArg List.length hpets.symm)⟩

/-- A one-row CSV file used to instantiate hypotheses concretely. -/
def witnessCSV : String :=
  "title,url,state,signatures\nCut rail fares,http://pet.example/9,open,5\n"

/-- A concrete encoder: one fixed vector per input text. -/
def witnessEnc : List String → List Vec :=
  fun ts => ts.map (fun _ => [1])

/-- Witness for C1 at a concrete file, absent cache, and concrete encoder. -/
theorem C1_witness :
    cacheWF none ∧
    isReady (initEngine (some witnessCSV) none witnessEnc).1 = true ∧
    ∃ m, (initEngine (some witnessCSV) none witnessEnc).1.embeddings = some m ∧
      m.length = (initEngine (some witnessCSV) none witnessEnc).1.petitions.length :=
  ⟨trivial, by decide,
    C1_ready_embedding_matrix_aligned (some witnessCSV) none witnessEnc
      (fun ts => by simp [witnessEnc]) trivial (by decide)⟩

/-- The engine contents for the legacy-cache counterexample. -/
def legacyPets : List Petition :=
  [{ title := "A", url := "u", state := "open", signatures := 1 }]

/-- An encoder that can be told apart from the legacy cached matrix. -/
def legacyEnc : List String → List Vec :=
  fun ts => ts.map (fun _ => [7])

/-- C7 counterexample: on a legacy bare-matrix artifact the code does NOT
adopt the cached matrix — `cached_data['petitions']` raises, the error is
caught, and a full regeneration runs: the resulting matrix is the freshly
encoded one (`[[7]]`), not the cached one (`[[99]]`), and a fresh cache
record is written. -/
theorem C7_counterexample :
    (prepareEmbeddings legacyPets
        (some (CacheArtifact.bareMatrix [[99]])) legacyEnc).1.embeddings
      = some [[7]] ∧
    (prepareEmbeddings legacyPets
        (some (CacheArtifact.bareMatrix [[99]])) legacyEnc).2
      = some (CacheArtifact.record legacyPets [[7]]) ∧
    ¬ (some [[(7 : ℚ)]] = some [[(99 : ℚ)]]) :=
  ⟨by decide, by decide, by decide⟩

/-- C7 amended: a legacy bare-matrix artifact behaves exactly like an absent
cache — the count-validation step is indeed skipped, but only because the
petition-snapshot lookup fails, so the matrix is never adopted and a full
regeneration (encoding all current titles) is triggered. -/
theorem C7_legacy_regenerates (pets : List Petition) (emb : List Vec)
    (enc : List String → List Vec) :
    prepareEmbeddings pets (some (CacheArtifact.bareMatrix emb)) enc
      = prepareEmbeddings pets none enc ∧
    (prepareEmbeddings pets (some (CacheArtifact.bareMatrix emb)) enc).1.embeddings
      = some (enc (pets.map (fun p => p.title))) :=
  ⟨rfl, rfl⟩

/-- C3: an empty or whitespace-only query makes `search` fail with the
validation error, for every engine state (even a not-ready one: validation
runs first), every encoder (none is called — the result does not depend on
it), and every filter combination; the validation failure is distinguishable
from the not-ready failure. -/
theorem C3_empty_query_validation (pets : List Petition) (loaded : Bool)
    (querySim : String → List ℚ) (query : String) (top_k : ℕ)
    (state_filter : Option String) (min_signatures : Option ℤ) (inc : Bool)
    (hq : query = "" ∨ pyStrip query = "") :
    search pets loaded querySim query top_k state_filter min_signatures inc
        = Except.error SearchErr.validationError ∧
    SearchErr.validationError ≠ SearchErr.notReadyError := by
  refine ⟨?_, by decide⟩
  unfold search
  rw [if_pos hq]

/-- Witness for C3 at the whitespace query of the spec's test scenario. -/
theorem C3_witness :
    (("   " : String) = "" ∨ pyStrip "   " = "") ∧
    (search [] false (fun _ => []) "   " 10 none none true
        = Except.error SearchErr.validationError ∧
      SearchErr.validationError ≠ SearchErr.notReadyError) :=
  ⟨Or.inr (by decide),
    C3_empty_query_validation [] false (fun _ => []) "   " 10 none none true
      (Or.inr (by decide))⟩

/-- C2: for a non-empty query on a ready engine, `search` returns a sequence
of length at most `top_k`, sorted descending by score, whose ranks are
exactly `1..length` in order; the returned slice is the ranked `top_k`-take
of the stable descending sort of the filtered candidates, and that sort is
stable (for every score value the subsequence with that score keeps dataset
order), so ties are broken by original dataset order. -/
theorem C2_search_ranked_output (pets : List Petition) (loaded : Bool)
    (querySim : String → List ℚ) (query : String) (k : ℕ)
    (state_filter : Option String) (min_signatures : Option ℤ) (inc : Bool)
    (hq : ¬ (query = "" ∨ pyStrip query = "")) (hl : loaded = true) :
    ∃ out,
      search pets loaded querySim query k state_filter min_signatures inc
          = Except.ok out ∧
      out.length ≤ k ∧
      out.Pairwise scoreGE ∧
      out.map (fun r => r.rank) = (List.range' 1 out.length).map some ∧
      out = assignRanks 1 ((sortResults (searchCandidates pets (querySim query)
        state_filter min_signatures inc)).take k) ∧
      ∀ c : ℚ,
        (sortResults (searchCandidates pets (querySim query) state_filter
            min_signatures inc)).filter (fun r => resultKey r = c)
          = (searchCandidates pets (querySim query) state_filter
              min_signatures inc).filter (fun r => resultKey r = c) := by
  subst hl
  refine ⟨assignRanks 1 ((sortResults (searchCandidates pets (querySim query)
    state_filter min_signatures inc)).take k), ?_, ?_, ?_, ?_, rfl,
    fun c => filter_key_sortResults _ c⟩
  · unfold search
    rw [if_neg hq]
    rfl
  · rw [length_assignRanks]
    exact le_trans (le_of_eq (List.length_take k _)) (min_le_left _ _)
  · exact pairwise_assignRanks 1
      ((sorted_sortResults _).sublist (List.take_sublist k _))
  · rw [map_rank_assignRanks, length_assignRanks]

/-- The two-petition dataset (with tied scores) of the C2 witness. -/
def tiePets : List Petition :=
  [ { title := "A", url := "a", state := "open", signatures := 10 },
    { title := "B", url := "b", state := "closed", signatures := 20 } ]

/-- A query-scorer giving both petitions the same score. -/
def tieSim : String → List ℚ :=
  fun _ => [1/2, 1/2]

/-- Witness for C2 on a ready two-petition engine with tied scores. -/
theorem C2_witness :
    (¬ (("climate" : String) = "" ∨ pyStrip "climate" = "")) ∧
    ∃ out,
      search tiePets true tieSim "climate" 5 none none true = Except.ok out ∧
      out.length ≤ 5 ∧
      out.Pairwise scoreGE ∧
      out.map (fun r => r.rank) = (List.range' 1 out.length).map some ∧
      out = assignRanks 1 ((sortResults (searchCandidates tiePets
        (tieSim "climate") none none true)).take 5) ∧
      ∀ c : ℚ,
        (sortResults (searchCandidates tiePets (tieSim "climate") none none
            true)).filter (fun r => resultKey r = c)
          = (searchCandidates tiePets (tieSim "climate") none none
              true).filter (fun r => resultKey r = c) :=
  ⟨by decide,
    C2_search_ranked_output tiePets true tieSim "climate" 5 none none true
      (by decide) rfl⟩

/-- C5 amended: the `state` filter (case-insensitive exact match, when the
filter string is non-empty) and the `min_signatures` filter (inclusive lower
bound, when the bound is non-zero — Python truthiness disables a zero bound)
are each applied as conjunctive predicates before ranking; there is no
`max_signatures` filter in the engine: the request model accepts one but the
endpoint never forwards it, so requests differing only in `max_signatures`
produce identical results. -/
theorem C5_filters_conjunctive (pets : List Petition) (loaded : Bool)
    (querySim : String → List ℚ) (query : String) (k : ℕ)
    (state_filter : Option String) (min_signatures : Option ℤ) (inc : Bool)
    (out : List SearchResult)
    (hout : search pets loaded querySim query k state_filter min_signatures inc
      = Except.ok out) :
    (∀ r ∈ out, ∀ sf, state_filter = some sf → sf ≠ "" → r.state = pyLower sf) ∧
    (∀ r ∈ out, ∀ n, min_signatures = some n → n ≠ 0 → n ≤ r.signatures) ∧
    (∀ (st : EngineState) (qsim : String → List ℚ) (req : SearchRequest)
        (f : SearchFilters), req.filters = some f →
      searchEndpoint st qsim req = searchEndpoint st qsim
        { req with filters := some { f with max_signatures := none } }) := by
  refine ⟨?_, ?_, ?_⟩
  · intro r hr sf hsf hne
    obtain ⟨s, p, hmem, hp, j, hj⟩ := search_mem_inv hout hr
    subst hj
    rw [hsf] at hp
    simp only [passesFilters, Bool.and_eq_true, Bool.or_eq_true,
      decide_eq_true_eq] at hp
    exact hp.1.resolve_left hne
  · intro r hr n hn hne
    obtain ⟨s, p, hmem, hp, j, hj⟩ := search_mem_inv hout hr
    subst hj
    rw [hn] at hp
    simp only [passesFilters, Bool.and_eq_true, Bool.or_eq_true,
      Bool.not_eq_true', decide_eq_true_eq, decide_eq_false_iff_not] at hp
    exact not_lt.mp (hp.2.resolve_left hne)
  · intro st qsim req f hf
    cases req
    simp only at hf
    subst hf
    rfl

/-- The dataset for the C5 witness: one petition passes both filters, one
fails both. -/
def filtPets : List Petition :=
  [ { title := "A", url := "a", state := "open", signatures := 100 },
    { title := "B", url := "b", state := "closed", signatures := 5 } ]

/-- A query-scorer for the C5 witness. -/
def filtSim : String → List ℚ :=
  fun _ => [1, 1]

/-- The output slice of the C5 witness search. -/
def filtOut : List SearchResult :=
  [{ title := "A", url := "a", state := "open", signatures := 100,
     simScore := some 1, rank := some 1 }]

/-- Witness for C5 with both filters engaged (`state = "Open"`,
`min_signatures = 10`). -/
theorem C5_witness :
    (search filtPets true filtSim "energy" 10 (some "Open") (some 10) true
      = Except.ok filtOut) ∧
    ((∀ r ∈ filtOut, ∀ sf, (some "Open" : Option String) = some sf → sf ≠ "" →
        r.state = pyLower sf) ∧
     (∀ r ∈ filtOut, ∀ n, (some 10 : Option ℤ) = some n → n ≠ 0 →
        n ≤ r.signatures) ∧
     (∀ (st : EngineState) (qsim : String → List ℚ) (req : SearchRequest)
        (f : SearchFilters), req.filters = some f →
      searchEndpoint st qsim req = searchEndpoint st qsim
        { req with filters := some { f with max_signatures := none } })) :=
  ⟨by decide,
    C5_filters_conjunctive filtPets true filtSim "energy" 10 (some "Open")
      (some 10) true filtOut (by decide)⟩

/-- The ready engine of the C5 counterexample. -/
def maxPets : List Petition :=
  [{ title := "A", url := "u", state := "open", signatures := 100 }]

/-- Its engine state. -/
def maxState : EngineState :=
  { petitions := maxPets, embeddings := some [[1]], embeddings_loaded := true }

/-- Its query-scorer. -/
def maxSim : String → List ℚ :=
  fun _ => [1]

/-- The filters of the C5 counterexample request: only `max_signatures`. -/
def maxFilters : SearchFilters :=
  { state := none, min_signatures := none, max_signatures := some 5 }

/-- A request supplying `max_signatures = 5`. -/
def maxReq : SearchRequest :=
  { query := "q", limit := 10, filters := some maxFilters }

/-- C5 counterexample: a request with `max_signatures = 5` still returns a
result with 100 signatures — the bound is never applied, refuting the
claim's `max_signatures` clause as stated. -/
theorem C5_counterexample :
    searchEndpoint maxState maxSim maxReq
      = Except.ok [SearchResult.mk "A" "u" "open" 100 (some 1) (some 1)] ∧
    ¬ ((100 : ℤ) ≤ 5) :=
  ⟨by decide, by decide⟩

/-- C4 (divergence evaluation): loading with the source file absent yields
TWENTY petitions — the ten samples installed by `_create_sample_data`
followed by the ten rows re-parsed from the file it just wrote — not ten;
the file is persisted, every produced petition has positive signatures, and
a subsequent load from the persisted file succeeds with exactly ten. -/
theorem C4_missing_file_produces_twenty :
    (loadData none).1.length = 20 ∧
    (loadData none).1.take 10 = samplePetitions ∧
    (loadData none).2 = some sampleCSV ∧
    (∀ p ∈ (loadData none).1, 0 < p.signatures) ∧
    (loadData (some sampleCSV)).1.length = 10 :=
  ⟨by decide, by decide, rfl, by decide, by decide⟩

/-- A CSV whose single data row carries a negative signature numeral. -/
def negCSV : String :=
  "title,url,state,signatures\nSave the bees,http://pet.example/1,open,-5\n"

/-- C8 counterexample: the header parse path maps a `-5` source value to a
petition with `signatures = -5 < 0` — comma-stripping precedes parsing but
the sign is preserved, so the invariant `signatures ≥ 0` fails as stated. -/
theorem C8_counterexample :
    (loadData (some negCSV)).1.map (fun p => p.signatures) = [-5] ∧
    ¬ ((0 : ℤ) ≤ -5) :=
  ⟨by decide, by decide⟩

/-- C8 amended: every petition of the synthetic fallback dataset has
positive signatures unconditionally; petitions from the parse paths (header
or header-less) have `signatures ≥ 0` provided every petition the parser
extracts from the supplied content has a non-negative parsed value — the
parser strips thousands separators before parsing but preserves a minus
sign. -/
theorem C8_signatures_nonneg_amended :
    (∀ p ∈ samplePetitions, 0 < p.signatures) ∧
    ∀ fs : Option String,
      (∀ content, fs = some content →
        ∀ p ∈ (parseContent content).getD [], 0 ≤ p.signatures) →
      ∀ p ∈ (loadData fs).1, 0 ≤ p.signatures := by
  refine ⟨by decide, ?_⟩
  intro fs hsrc p hp
  cases fs with
  | none =>
    revert p hp
    decide
  | some content =>
    cases hpc : parseContent content with
    | none =>
      simp only [loadData, hpc] at hp
      have hsamp : ∀ q ∈ samplePetitions, 0 < q.signatures := by decide
      exact le_of_lt (hsamp p hp)
    | some pets =>
      simp only [loadData, hpc] at hp
      refine hsrc content rfl p ?_
      rw [hpc]
      exact hp

/-- Witness for C8 at a concrete well-formed CSV. -/
theorem C8_witness :
    (∀ p ∈ samplePetitions, 0 < p.signatures) ∧
    (∀ p ∈ (loadData (some witnessCSV)).1, 0 ≤ p.signatures) :=
  ⟨C8_signatures_nonneg_amended.1,
    C8_signatures_nonneg_amended.2 (some witnessCSV)
      (fun content hcontent => by
        have h := Option.some.inj hcontent
        subst h
        decide)⟩

/-- C9: every result of the keyword fallback comes from a petition whose
lower-cased title shares at least one word with the lower-cased query word
set, carries exactly the score `|intersection| / |query words|`, and that
score is positive — petitions with zero word overlap are excluded entirely,
so no zero-score entry survives the fallback path. -/
theorem C9_fallback_overlap_scoring (pets : List Petition) (query : String)
    (k : ℕ) :
    ∀ r ∈ keywordFallbackSearch pets query k, ∃ p ∈ pets,
      commonWords (wordSet (pyLower query)) p.title ≠ [] ∧
      r.title = p.title ∧
      r.simScore = some
        (((commonWords (wordSet (pyLower query)) p.title).length : ℚ) /
          ((wordSet (pyLower query)).length : ℚ)) ∧
      (0 : ℚ) <
        ((commonWords (wordSet (pyLower query)) p.title).length : ℚ) /
          ((wordSet (pyLower query)).length : ℚ) := by
  intro r hr
  obtain ⟨p, hp, hc, j, hj⟩ := mem_keywordFallback hr
  subst hj
  refine ⟨p, hp, hc, rfl, rfl, ?_⟩
  have hnum : 0 < (commonWords (wordSet (pyLower query)) p.title).length :=
    List.length_pos.mpr hc
  have hqws : wordSet (pyLower query) ≠ [] := by
    intro h0
    apply hc
    simp [commonWords, h0]
  have hden : 0 < (wordSet (pyLower query)).length := List.length_pos.mpr hqws
  exact div_pos (by exact_mod_cast hnum) (by exact_mod_cast hden)

/-- The dataset of the C9 witness. -/
def kwPets : List Petition :=
  [{ title := "climate action now", url := "v", state := "open",
     signatures := 5 }]

/-- The fallback result of the C9 witness. -/
def kwResult : SearchResult :=
  { title := "climate action now", url := "v", state := "open",
    signatures := 5, simScore := some 1, rank := some 1 }

/-- Witness for C9: a two-word query overlapping a title on both words. -/
theorem C9_witness :
    keywordFallbackSearch kwPets "Climate ACTION" 10 = [kwResult] ∧
    ∃ p ∈ kwPets,
      commonWords (wordSet (pyLower "Climate ACTION")) p.title ≠ [] ∧
      kwResult.title = p.title ∧
      kwResult.simScore = some
        (((commonWords (wordSet (pyLower "Climate ACTION")) p.title).length : ℚ) /
          ((wordSet (pyLower "Climate ACTION")).length : ℚ)) ∧
      (0 : ℚ) <
        ((commonWords (wordSet (pyLower "Climate ACTION")) p.title).length : ℚ) /
          ((wordSet (pyLower "Climate ACTION")).length : ℚ) :=
  ⟨by with_unfolding_all decide,
    C9_fallback_overlap_scoring kwPets "Climate ACTION" 10 kwResult
      (by simp [show keywordFallbackSearch kwPets "Climate ACTION" 10 = [kwResult]
        from by with_unfolding_all decide])⟩

/-- C10: an empty or whitespace-only query leaves the fallback word set
empty, so `keyword_fallback_search` returns the empty list instead of
raising — unlike `search`, which fails validation on the same query; and in
general the score's divisor (the number of distinct query words) is non-zero
whenever any result is produced, because the division is guarded by the
non-empty-intersection check. -/
theorem C10_fallback_accepts_empty_query (pets : List Petition) (k : ℕ)
    (query : String) (hq : query = "" ∨ pyStrip query = "") :
    wordSet (pyLower query) = [] ∧
    keywordFallbackSearch pets query k = [] ∧
    (∀ (loaded : Bool) (querySim : String → List ℚ)
        (state_filter : Option String) (min_signatures : Option ℤ)
        (inc : Bool),
      search pets loaded querySim query k state_filter min_signatures inc
        = Except.error SearchErr.validationError) ∧
    (∀ (pets₂ : List Petition) (query₂ : String) (k₂ : ℕ),
      ∀ r ∈ keywordFallbackSearch pets₂ query₂ k₂,
        (wordSet (pyLower query₂)).length ≠ 0) := by
  have hw : wordSet (pyLower query) = [] := wordSet_empty_of_ws hq
  refine ⟨hw, ?_, ?_, ?_⟩
  · simp only [keywordFallbackSearch, hw]
    rw [List.filterMap_eq_nil_iff.mpr (fun p _ => by simp [commonWords])]
    rw [show sortResults [] = [] from rfl, List.take_nil]
    rfl
  · intro loaded querySim state_filter min_signatures inc
    unfold search
    rw [if_pos hq]
  · intro pets₂ query₂ k₂ r hr h0
    obtain ⟨p, hp, hc, j, hj⟩ := mem_keywordFallback hr
    apply hc
    have h2 : wordSet (pyLower query₂) = [] := List.length_eq_zero.mp h0
    simp [commonWords, h2]

/-- Witness for C10 at a whitespace-only query over a concrete dataset. -/
theorem C10_witness :
    (("   " : String) = "" ∨ pyStrip "   " = "") ∧
    (wordSet (pyLower "   ") = [] ∧
     keywordFallbackSearch kwPets "   " 3 = [] ∧
     (∀ (loaded : Bool) (querySim : String → List ℚ)
        (state_filter : Option String) (min_signatures : Option ℤ)
        (inc : Bool),
       search kwPets loaded querySim "   " 3 state_filter min_signatures inc
         = Except.error SearchErr.validationError) ∧
     (∀ (pets₂ : List Petition) (query₂ : String) (k₂ : ℕ),
       ∀ r ∈ keywordFallbackSearch pets₂ query₂ k₂,
         (wordSet (pyLower query₂)).length ≠ 0)) :=
  ⟨Or.inr (by decide),
    C10_fallback_accepts_empty_query kwPets 3 "   " (Or.inr (by decide))⟩

/-- C6 (modelled from the spec — no analytics code exists under the backend
sources): the report's total is the dataset size, the related count is the
number of petitions scoring at least the threshold, and the percentage
related equals `round(related_count / total_count * 100, 2)`, with `0` when
the dataset is empty. -/
theorem C6_analytics_percentage (pets : List Petition)
    (querySim : String → List ℚ) (query : String) (threshold : ℚ) :
    (analytics pets querySim query threshold).total_count = pets.length ∧
    (analytics pets querySim query threshold).related_count
      = (((querySim query).zip pets).filter (fun sp => threshold ≤ sp.1)).length ∧
    (analytics pets querySim query threshold).percentage_related
      = (if pets.length = 0 then 0
         else round2
          ((((((querySim query).zip pets).filter
              (fun sp => threshold ≤ sp.1)).length : ℚ) / (pets.length : ℚ)) * 100)) ∧
    (analytics [] querySim query threshold).percentage_related = 0 := by
  refine ⟨rfl, ?_, ?_, ?_⟩
  · simp [analytics]
  · simp [analytics]
  · simp [analytics]

end PetitionSearch
